import Mathlib

/-!
Verification development for the rust-mcp repository.

The development shallowly embeds the repository's protocol core:

* `src/mcp/schema.rs` — the wire-message model (`JSONRPCMessage` and its
  parameter/result shapes) together with its serde serialization and
  deserialization behaviour, modelled over an explicit JSON value type.
* `src/mcp/server/{mod,request,notification,utils,sse}.rs` — the session
  registry, the handshake state machine, the dispatcher and the HTTP
  submission handler.

Modelling conventions:

* JSON objects are association lists `List (String × Json)`; serde_json's
  map stores at most one entry per key, and decoding is key-based, so the
  ordering of entries is irrelevant to every decoder below.
* serde_json distinguishes integer-valued and float-valued numbers;
  `Json.num` holds the former (`i64`), `Json.fnum` the latter (the
  `OrderedFloat<f32>` fields are modelled as rationals, no claim depends
  on float rounding).
* Rust `HashMap<String, V>` fields become association lists; `Option`
  fields become `Option`; `i64` becomes `Int`; `u64` becomes `Nat`.
* serde attributes are reproduced by the encoders/decoders:
  `#[serde(untagged)]` enums try their variants in declaration order;
  `#[serde(tag = "method", content = "params")]` is adjacent tagging;
  `#[serde(tag = "...")]` is internal tagging (the tag key is removed
  before the variant's fields are read); `#[serde(flatten)]` merges a
  field's entries into the surrounding object on encode, and on decode
  lets the flattened field read the surrounding object minus the keys
  consumed by the host struct's plain fields; `skip_serializing_if =
  "Option::is_none"` omits the key; an `Option` field decodes to `none`
  both when its key is absent and when its value is JSON `null`;
  unit variants of untagged enums serialize to JSON `null` and
  deserialize only from `null`.
* Panic-equivalent aborts (`unimplemented!()`, `todo!()`) are modelled as
  explicit `panic` outcome constructors.
-/

namespace Mcp

/-- JSON values, the target of serialization (serde_json `Value`). -/
inductive Json where
  | null
  | bool (b : Bool)
  | num (n : Int)
  | fnum (q : Rat)
  | str (s : String)
  | arr (elems : List Json)
  | obj (fields : List (String × Json))

/-- Fields of a JSON object. -/
abbrev JObj := List (String × Json)

/-- Remove every entry with the given key (serde consumes a matched field
from the buffer handed to later flattened fields). -/
def jerase (o : JObj) (k : String) : JObj :=
  o.filter (fun p => p.1 ≠ k)

/-- Insert a key/value pair, overwriting an existing entry with the same
key, as serde_json's map insert does when flattened fields collide. -/
def jput : JObj → String → Json → JObj
  | [], k, v => [(k, v)]
  | (k', v') :: rest, k, v =>
    if k' = k then (k, v) :: rest else (k', v') :: jput rest k v

/-- Merge the entries of `b` into `a` (flattening several field groups
into one object, in field-declaration order). -/
def jmerge (a b : JObj) : JObj :=
  b.foldl (fun acc p => jput acc p.1 p.2) a

/-- One optional entry: `skip_serializing_if = "Option::is_none"`. -/
def joptF (k : String) : Option Json → JObj
  | none => []
  | some v => [(k, v)]

/-! ## Schema data types (src/mcp/schema.rs) -/

/-- `ProtocolVersion`: single supported literal, serialized as the string
"2024-11-05". -/
inductive ProtocolVersion where
  | Mcp2024_11_05
deriving DecidableEq

/-- `LATEST_PROTOCOL_VERSION`. -/
def LATEST_PROTOCOL_VERSION : ProtocolVersion := .Mcp2024_11_05

/-- `JSONRPC_VERSION`. -/
def JSONRPC_VERSION : String := "2.0"

/-- `ProgressToken`: untagged string-or-integer. -/
inductive ProgressToken where
  | String (s : String)
  | Number (n : Int)
deriving DecidableEq

/-- `Cursor`. -/
abbrev Cursor := String

/-- `RequestBaseMeta`. -/
structure RequestBaseMeta where
  progress_token : Option ProgressToken

/-- `RequestBaseParams`: optional `_meta` plus a flattened passthrough
map of unrecognized fields. -/
structure RequestBaseParams where
  meta : Option RequestBaseMeta
  extra : JObj

/-- `NotificationBaseParams`. -/
structure NotificationBaseParams where
  meta : Option JObj
  extra : JObj

/-- `ResultBase`: optional `_meta` plus flattened passthrough map; every
field is optional, so any JSON object deserializes into it. -/
structure ResultBase where
  meta : Option JObj
  extra : JObj

/-- `RequestId`: untagged string-or-integer correlation token. -/
inductive RequestId where
  | String (s : String)
  | Number (n : Int)
deriving DecidableEq

/-- Reserved JSON-RPC error codes (schema.rs constants). -/
def PARSE_ERROR : Int := -32700

/-- `INVALID_REQUEST`. -/
def INVALID_REQUEST : Int := -32600

/-- `METHOD_NOT_FOUND`. -/
def METHOD_NOT_FOUND : Int := -32601

/-- `INVALID_PARAMS`. -/
def INVALID_PARAMS : Int := -32602

/-- `INTERNAL_ERROR`. -/
def INTERNAL_ERROR : Int := -32603

/-- `ErrorParams`. -/
structure ErrorParams where
  code : Int
  message : String
  data : Option Json

/-- `CancelledNotificationParams`. -/
structure CancelledNotificationParams where
  request_id : RequestId
  reason : Option String

/-- `Implementation`. -/
structure Implementation where
  name : String
  version : String
deriving DecidableEq

/-- `RootCapabilities`. -/
structure RootCapabilities where
  list_changed : Option Bool

/-- `ClientCapabilities`. -/
structure ClientCapabilities where
  experimental : Option JObj
  roots : Option RootCapabilities
  sampling : Option JObj

/-- `ServerCapabilities`. -/
structure ServerCapabilities where
  experimental : Option JObj
  logging : Option JObj
  prompts : Option JObj
  resources : Option JObj
  tools : Option JObj

/-- `InitializeRequestParams`. -/
structure InitializeRequestParams where
  protocol_version : ProtocolVersion
  capabilities : ClientCapabilities
  client_info : Implementation

/-- `InitializeResult`. -/
structure InitializeResult where
  protocol_version : ProtocolVersion
  capabilities : ServerCapabilities
  server_info : Implementation
  instructions : Option String

/-- `InitializedNotificationParams`. -/
structure InitializedNotificationParams where
  notification_base : NotificationBaseParams

/-- `PingRequestParams`. -/
structure PingRequestParams where
  request_base : RequestBaseParams

/-- `ProgressNotificationParams`. -/
structure ProgressNotificationParams where
  progress_token : ProgressToken
  progress : Int
  total : Option Int

/-- `PaginatedRequestParams`. -/
structure PaginatedRequestParams where
  request_base : RequestBaseParams
  cursor : Option Cursor

/-- `PaginatedResult`. -/
structure PaginatedResult where
  next_cursor : Option Cursor

/-- `Role`: unit enum serialized as "user" / "assistant". -/
inductive Role where
  | User
  | Assistant
deriving DecidableEq

/-- `Annotations`. -/
structure Annotations where
  audience : Option (List Role)
  priority : Option Int

/-- `AnnotatedBase`. -/
structure AnnotatedBase where
  annotations : Option Annotations

/-- `Resource`. -/
structure Resource where
  annotated_base : AnnotatedBase
  uri : String
  name : String
  description : Option String
  mime_type : Option String

/-- `ResourceTemplate`. -/
structure ResourceTemplate where
  annotated_base : AnnotatedBase
  uri_template : String
  name : String
  description : Option String
  mime_type : Option String

/-- `ResourceContents`. -/
structure ResourceContents where
  uri : String
  mime_type : Option String

/-- `TextResourceContents`. -/
structure TextResourceContents where
  resource_contents_base : ResourceContents
  text : String

/-- `BlobResourceContents`. -/
structure BlobResourceContents where
  resource_contents_base : ResourceContents
  blob : String

/-- `ContentsResource`: untagged text-or-blob resource contents. -/
inductive ContentsResource where
  | Text (t : TextResourceContents)
  | Blob (b : BlobResourceContents)

/-- `ListResourcesRequestParams`. -/
structure ListResourcesRequestParams where
  paginated_base : PaginatedRequestParams

/-- `ListResourcesResult`. -/
structure ListResourcesResult where
  paginated_base : PaginatedResult
  resources : List Resource

/-- `ListResourceTemplatesRequestParams`. -/
structure ListResourceTemplatesRequestParams where
  paginated_base : PaginatedRequestParams

/-- `ListResourcesTemplateResult`. -/
structure ListResourcesTemplateResult where
  paginated_base : PaginatedResult
  resources_templates : List ResourceTemplate

/-- `ReadResourceRequestParams`. -/
structure ReadResourceRequestParams where
  uri : String

/-- `ReadResourceResult`. -/
structure ReadResourceResult where
  contents : List ContentsResource

/-- `ResourceListChangedNotificationParams`. -/
structure ResourceListChangedNotificationParams where
  notification_base : NotificationBaseParams

/-- `SubscribeRequestParams`. -/
structure SubscribeRequestParams where
  uri : String

/-- `UnsubscribeRequestParams`. -/
structure UnsubscribeRequestParams where
  uri : String

/-- `ResourceUpdatedNotificationParams`. -/
structure ResourceUpdatedNotificationParams where
  uri : String

/-- `PromptArgument`. -/
structure PromptArgument where
  name : String
  description : Option String
  required : Option Bool

/-- `Prompt`. -/
structure Prompt where
  name : String
  description : Option String
  arguments : Option (List PromptArgument)

/-- `ListPromptsRequestParams`. -/
structure ListPromptsRequestParams where
  paginated_base : PaginatedRequestParams

/-- `GetPromptRequestParams`. -/
structure GetPromptRequestParams where
  name : String
  arguments : Option (List (String × String))

/-- `TextContent`. -/
structure TextContent where
  annotated_base : AnnotatedBase
  text : String

/-- `ImageContent`. -/
structure ImageContent where
  annotated_base : AnnotatedBase
  data : String
  mime_type : String

/-- `EmbeddedResourceEnum`: untagged text-or-blob. -/
inductive EmbeddedResourceEnum where
  | Text (t : TextResourceContents)
  | Blob (b : BlobResourceContents)

/-- `EmbeddedResource`. -/
structure EmbeddedResource where
  annotated_base : AnnotatedBase
  resource : EmbeddedResourceEnum

/-- `PromptMessageContent`: internally tagged by "type". -/
inductive PromptMessageContent where
  | Text (t : TextContent)
  | Image (i : ImageContent)
  | Embedded (e : EmbeddedResource)

/-- `PromptMessage`. -/
structure PromptMessage where
  role : Role
  content : PromptMessageContent

/-- `ListPromptsResult`. -/
structure ListPromptsResult where
  paginated_base : PaginatedResult
  prompts : List Prompt

/-- `GetPromptResult`. -/
structure GetPromptResult where
  description : Option String
  messages : List PromptMessage

/-- `PromptListChangedNotificationParams`. -/
structure PromptListChangedNotificationParams where
  notification_base : NotificationBaseParams

/-- `ToolInputSchema`. -/
structure ToolInputSchema where
  properties : Option JObj
  required : List String

/-- `ToolInputSchemaType`: internally tagged by "type", single variant
"object". -/
inductive ToolInputSchemaType where
  | Object (s : ToolInputSchema)

/-- `Tool`. -/
structure Tool where
  name : String
  description : Option String
  input_schema : ToolInputSchemaType

/-- `ListToolsRequestParams`. -/
structure ListToolsRequestParams where
  paginated_base : PaginatedRequestParams

/-- `ListToolsResult`. -/
structure ListToolsResult where
  paginated_base : PaginatedResult
  tools : List Tool

/-- `CallToolContent`: internally tagged by "type". -/
inductive CallToolContent where
  | Text (t : TextContent)
  | Image (i : ImageContent)
  | Embedded (e : EmbeddedResource)

/-- `CallToolResult`. -/
structure CallToolResult where
  content : List CallToolContent
  is_error : Option Bool

/-- `CallToolRequestParams`. -/
structure CallToolRequestParams where
  name : String
  arguments : Option JObj

/-- `ToolListChangedNotificationParams`. -/
structure ToolListChangedNotificationParams where
  notifications_base : NotificationBaseParams

/-- `LoggingLevel`: an untagged enum whose variants are all unit
variants; despite the `rename_all` attribute, untagged serialization
never consults variant names. -/
inductive LoggingLevel where
  | Debug
  | Info
  | Notice
  | Warning
  | Error
  | Critical
  | Alert
  | Emergency
deriving DecidableEq

/-- `SetLevelRequestParams`. -/
structure SetLevelRequestParams where
  level : LoggingLevel

/-- `LoggingMessageNotificationParams`. -/
structure LoggingMessageNotificationParams where
  level : LoggingLevel
  logger : Option String
  data : Json

/-- `OrderedFloat<f32>` model: a rational payload standing for the float
value; no claim in this development depends on float rounding. -/
structure OrderedFloat32 where
  val : Rat
deriving DecidableEq

/-- `StopReason`: untagged, three unit variants then a string fallback. -/
inductive StopReason where
  | EndTurn
  | StopSequence
  | MaxTokens
  | String (s : String)
deriving DecidableEq

/-- `SamplingMessageContent`: internally tagged by "type". -/
inductive SamplingMessageContent where
  | Text (t : TextContent)
  | Image (i : ImageContent)

/-- `SamplingMessage`. -/
structure SamplingMessage where
  role : Role
  content : SamplingMessageContent

/-- `ModelHint`. -/
structure ModelHint where
  name : Option String

/-- `ModelPreferences`. -/
structure ModelPreferences where
  hints : Option (List ModelHint)
  cost_priority : OrderedFloat32
  speed_priority : OrderedFloat32
  intelligence_priority : OrderedFloat32

/-- `CreateMessageRequestParams`. -/
structure CreateMessageRequestParams where
  messages : List SamplingMessage
  model_preferences : Option ModelPreferences
  system_prompt : Option String
  temperature : Option OrderedFloat32
  max_tokens : Option Nat
  stop_sequences : Option (List String)
  metadata : Option JObj

/-- `CreateMessageResult`. -/
structure CreateMessageResult where
  sampling_message : SamplingMessage
  model : String
  stop_reason : Option StopReason

/-- `CompleteRequestRef`: internally tagged by "type" with renames
"ref/resource" and "ref/prompt". -/
inductive CompleteRequestRef where
  | Resource (uri : String)
  | Prompt (name : String)

/-- `CompleteRequestArgument`. -/
structure CompleteRequestArgument where
  name : String
  value : String

/-- `CompleteRequestParams`. -/
structure CompleteRequestParams where
  ref : CompleteRequestRef
  argument : CompleteRequestArgument

/-- `CompleteResult`. -/
structure CompleteResult where
  values : List String
  total : Option Int
  has_more : Option Bool

/-- `ListRootsRequestParams`. -/
structure ListRootsRequestParams where
  request_base : RequestBaseParams

/-- `Root`. -/
structure Root where
  uri : String
  name : Option String

/-- `ListRootResult`. -/
structure ListRootResult where
  roots : List Root

/-- `RootsListChangedNotificationParams`. -/
structure RootsListChangedNotificationParams where
  notification_base : NotificationBaseParams

/-- `RequestParams`: adjacently tagged (`tag = "method"`,
`content = "params"`); variant names without an explicit rename are
camelCased. -/
inductive RequestParams where
  | Initialize (p : InitializeRequestParams)
  | Ping (p : PingRequestParams)
  | Paginated (p : Option PaginatedRequestParams)
  | ListResources (p : ListResourcesRequestParams)
  | ListResourceTemplate (p : ListResourceTemplatesRequestParams)
  | ReadResource (p : ReadResourceRequestParams)
  | Subscribe (p : SubscribeRequestParams)
  | Unsubscribe (p : UnsubscribeRequestParams)
  | ListPrompts (p : ListPromptsRequestParams)
  | GetPrompt (p : GetPromptRequestParams)
  | ListTools (p : ListToolsRequestParams)
  | CallTool (p : CallToolRequestParams)
  | SetLevel (p : SetLevelRequestParams)
  | CreateMessage (p : CreateMessageRequestParams)
  | CompleteRequest (p : CompleteRequestParams)
  | ListRoots (p : ListRootsRequestParams)

/-- `NotificationParams`: internally tagged (`tag = "method"`). -/
inductive NotificationParams where
  | Cancelled (p : CancelledNotificationParams)
  | Initialized (p : InitializedNotificationParams)
  | Progress (p : ProgressNotificationParams)
  | ResourceListChanged (p : ResourceListChangedNotificationParams)
  | ResourceUpdated (p : ResourceUpdatedNotificationParams)
  | PromptListChanged (p : PromptListChangedNotificationParams)
  | ToolListChanged (p : ToolListChangedNotificationParams)
  | LoggingMessage (p : LoggingMessageNotificationParams)
  | RootsListChanged (p : RootsListChangedNotificationParams)

/-- `ResultEnum`: untagged; `Empty` is tried first when deserializing. -/
inductive ResultEnum where
  | Empty (r : ResultBase)
  | Initialize (r : InitializeResult)
  | Paginated (r : PaginatedResult)
  | ListResources (r : ListResourcesResult)
  | ListResourcesTemplate (r : ListResourcesTemplateResult)
  | ReadResource (r : ReadResourceResult)
  | ListPrompts (r : ListPromptsResult)
  | GetPrompt (r : GetPromptResult)
  | ListTools (r : ListToolsResult)
  | CallTool (r : CallToolResult)
  | CreateMessage (r : CreateMessageResult)
  | Complete (r : CompleteResult)
  | ListRoot (r : ListRootResult)

/-- `Result`: two flattened groups merged into one JSON object. -/
structure Result where
  base : ResultBase
  defined_fields : ResultEnum

/-- `JSONRPCRequest`. -/
structure JSONRPCRequest where
  params : RequestParams
  json_rpc : String
  id : RequestId

/-- `JSONRPCNotification`. -/
structure JSONRPCNotification where
  params : NotificationParams
  json_rpc : String

/-- `JSONRPCResult`. -/
structure JSONRPCResult where
  json_rpc : String
  id : RequestId
  result : Result

/-- `JSONRPCError`. -/
structure JSONRPCError where
  json_rpc : String
  id : RequestId
  error : ErrorParams

/-- `JSONRPCResponse`: untagged success-or-error, success tried first. -/
inductive JSONRPCResponse where
  | Result (r : JSONRPCResult)
  | Error (e : JSONRPCError)

/-- `JSONRPCMessage`: untagged envelope, variants tried in order. -/
inductive JSONRPCMessage where
  | Request (r : JSONRPCRequest)
  | Notification (n : JSONRPCNotification)
  | Response (r : JSONRPCResponse)

/-! ## Encoding (serde `Serialize` derived behaviour)

Structs that participate in `#[serde(flatten)]` get an encoder returning
the bare field list (`JObj`); standalone values are encoded to `Json`.
Field groups are merged in field-declaration order with `jmerge`. -/

/-- Encode `ProgressToken` (untagged). -/
def encodeProgressToken : ProgressToken → Json
  | .String s => .str s
  | .Number n => .num n

/-- Encode `RequestId` (untagged). -/
def encodeRequestId : RequestId → Json
  | .String s => .str s
  | .Number n => .num n

/-- Encode `ProtocolVersion` (unit variant renamed "2024-11-05"). -/
def encodeProtocolVersion : ProtocolVersion → Json
  | .Mcp2024_11_05 => .str "2024-11-05"

/-- Encode `Role` (externally tagged unit variants, camelCased). -/
def encodeRole : Role → Json
  | .User => .str "user"
  | .Assistant => .str "assistant"

/-- Encode `LoggingLevel`: every variant is a unit variant of an untagged
enum, so each serializes to JSON `null`. -/
def encodeLoggingLevel : LoggingLevel → Json
  | _ => .null

/-- Encode `StopReason`: unit variants serialize to `null`, the
`String` variant to its string. -/
def encodeStopReason : StopReason → Json
  | .EndTurn => .null
  | .StopSequence => .null
  | .MaxTokens => .null
  | .String s => .str s

/-- Encode `OrderedFloat<f32>` as a float-valued JSON number. -/
def encodeOrderedFloat32 (f : OrderedFloat32) : Json := .fnum f.val

/-- Encode `RequestBaseMeta`. -/
def encodeRequestBaseMeta (m : RequestBaseMeta) : Json :=
  .obj (joptF "progressToken" (m.progress_token.map encodeProgressToken))

/-- Encode `RequestBaseParams` (flattened group). -/
def encodeRequestBaseParams (b : RequestBaseParams) : JObj :=
  jmerge (joptF "_meta" (b.meta.map encodeRequestBaseMeta)) b.extra

/-- Encode `NotificationBaseParams` (flattened group). -/
def encodeNotificationBaseParams (b : NotificationBaseParams) : JObj :=
  jmerge (joptF "_meta" (b.meta.map .obj)) b.extra

/-- Encode `ResultBase` (flattened group). -/
def encodeResultBase (b : ResultBase) : JObj :=
  jmerge (joptF "_meta" (b.meta.map .obj)) b.extra

/-- Encode `PaginatedRequestParams`. -/
def encodePaginatedRequestParams (p : PaginatedRequestParams) : JObj :=
  jmerge (encodeRequestBaseParams p.request_base)
    (joptF "cursor" (p.cursor.map .str))

/-- Encode `RootCapabilities`. -/
def encodeRootCapabilities (c : RootCapabilities) : Json :=
  .obj (joptF "listChanged" (c.list_changed.map .bool))

/-- Encode `ClientCapabilities`. -/
def encodeClientCapabilities (c : ClientCapabilities) : Json :=
  .obj (joptF "experimental" (c.experimental.map .obj)
    ++ joptF "roots" (c.roots.map encodeRootCapabilities)
    ++ joptF "sampling" (c.sampling.map .obj))

/-- Encode `ServerCapabilities`. -/
def encodeServerCapabilities (c : ServerCapabilities) : Json :=
  .obj (joptF "experimental" (c.experimental.map .obj)
    ++ joptF "logging" (c.logging.map .obj)
    ++ joptF "prompts" (c.prompts.map .obj)
    ++ joptF "resources" (c.resources.map .obj)
    ++ joptF "tools" (c.tools.map .obj))

/-- Encode `Implementation`. -/
def encodeImplementation (i : Implementation) : Json :=
  .obj [("name", .str i.name), ("version", .str i.version)]

/-- Encode `InitializeRequestParams`. -/
def encodeInitializeRequestParams (p : InitializeRequestParams) : JObj :=
  [("protocolVersion", encodeProtocolVersion p.protocol_version),
   ("capabilities", encodeClientCapabilities p.capabilities),
   ("clientInfo", encodeImplementation p.client_info)]

/-- Encode `InitializeResult` (flattened into the result object). -/
def encodeInitializeResult (r : InitializeResult) : JObj :=
  [("protocolVersion", encodeProtocolVersion r.protocol_version),
   ("capabilities", encodeServerCapabilities r.capabilities),
   ("serverInfo", encodeImplementation r.server_info)]
  ++ joptF "instructions" (r.instructions.map .str)

/-- Encode `Annotations`. -/
def encodeAnnotations (a : Annotations) : Json :=
  .obj (joptF "audience" (a.audience.map (fun l => .arr (l.map encodeRole)))
    ++ joptF "priority" (a.priority.map .num))

/-- Encode `AnnotatedBase` (flattened group). -/
def encodeAnnotatedBase (a : AnnotatedBase) : JObj :=
  joptF "annotations" (a.annotations.map encodeAnnotations)

/-- Encode `Resource`. -/
def encodeResource (r : Resource) : Json :=
  .obj (jmerge (encodeAnnotatedBase r.annotated_base)
    ([("uri", .str r.uri), ("name", .str r.name)]
      ++ joptF "description" (r.description.map .str)
      ++ joptF "mimeType" (r.mime_type.map .str)))

/-- Encode `ResourceTemplate`. -/
def encodeResourceTemplate (r : ResourceTemplate) : Json :=
  .obj (jmerge (encodeAnnotatedBase r.annotated_base)
    ([("uriTemplate", .str r.uri_template), ("name", .str r.name)]
      ++ joptF "description" (r.description.map .str)
      ++ joptF "mimeType" (r.mime_type.map .str)))

/-- Encode `ResourceContents` (flattened group). -/
def encodeResourceContents (r : ResourceContents) : JObj :=
  [("uri", .str r.uri)] ++ joptF "mimeType" (r.mime_type.map .str)

/-- Encode `TextResourceContents`. -/
def encodeTextResourceContents (t : TextResourceContents) : Json :=
  .obj (jmerge (encodeResourceContents t.resource_contents_base)
    [("text", .str t.text)])

/-- Encode `BlobResourceContents`. -/
def encodeBlobResourceContents (b : BlobResourceContents) : Json :=
  .obj (jmerge (encodeResourceContents b.resource_contents_base)
    [("blob", .str b.blob)])

/-- Encode `ContentsResource` (untagged). -/
def encodeContentsResource : ContentsResource → Json
  | .Text t => encodeTextResourceContents t
  | .Blob b => encodeBlobResourceContents b

/-- Encode `EmbeddedResourceEnum` (untagged). -/
def encodeEmbeddedResourceEnum : EmbeddedResourceEnum → Json
  | .Text t => encodeTextResourceContents t
  | .Blob b => encodeBlobResourceContents b

/-- Encode `TextContent` (flattened into tagged enums). -/
def encodeTextContent (t : TextContent) : JObj :=
  jmerge (encodeAnnotatedBase t.annotated_base) [("text", .str t.text)]

/-- Encode `ImageContent` (flattened into tagged enums). -/
def encodeImageContent (i : ImageContent) : JObj :=
  jmerge (encodeAnnotatedBase i.annotated_base)
    [("data", .str i.data), ("mimeType", .str i.mime_type)]

/-- Encode `EmbeddedResource` (flattened into tagged enums). -/
def encodeEmbeddedResource (e : EmbeddedResource) : JObj :=
  jmerge (encodeAnnotatedBase e.annotated_base)
    [("resource", encodeEmbeddedResourceEnum e.resource)]

/-- Encode `PromptMessageContent` (internally tagged by "type"). -/
def encodePromptMessageContent : PromptMessageContent → Json
  | .Text t => .obj (jmerge [("type", .str "text")] (encodeTextContent t))
  | .Image i => .obj (jmerge [("type", .str "image")] (encodeImageContent i))
  | .Embedded e => .obj (jmerge [("type", .str "resource")] (encodeEmbeddedResource e))

/-- Encode `SamplingMessageContent` (internally tagged by "type"). -/
def encodeSamplingMessageContent : SamplingMessageContent → Json
  | .Text t => .obj (jmerge [("type", .str "text")] (encodeTextContent t))
  | .Image i => .obj (jmerge [("type", .str "image")] (encodeImageContent i))

/-- Encode `CallToolContent` (internally tagged by "type"). -/
def encodeCallToolContent : CallToolContent → Json
  | .Text t => .obj (jmerge [("type", .str "text")] (encodeTextContent t))
  | .Image i => .obj (jmerge [("type", .str "image")] (encodeImageContent i))
  | .Embedded e => .obj (jmerge [("type", .str "resource")] (encodeEmbeddedResource e))

/-- Encode `PromptMessage`. -/
def encodePromptMessage (m : PromptMessage) : Json :=
  .obj [("role", encodeRole m.role), ("content", encodePromptMessageContent m.content)]

/-- Encode `PromptArgument`. -/
def encodePromptArgument (a : PromptArgument) : Json :=
  .obj ([("name", .str a.name)]
    ++ joptF "description" (a.description.map .str)
    ++ joptF "required" (a.required.map .bool))

/-- Encode `Prompt`. -/
def encodePrompt (p : Prompt) : Json :=
  .obj ([("name", .str p.name)]
    ++ joptF "description" (p.description.map .str)
    ++ joptF "arguments" (p.arguments.map (fun l => .arr (l.map encodePromptArgument))))

/-- Encode `PaginatedResult` (flattened group). -/
def encodePaginatedResult (p : PaginatedResult) : JObj :=
  joptF "nextCursor" (p.next_cursor.map .str)

/-- Encode `ListResourcesResult` (flattened into the result object). -/
def encodeListResourcesResult (r : ListResourcesResult) : JObj :=
  jmerge (encodePaginatedResult r.paginated_base)
    [("resources", .arr (r.resources.map encodeResource))]

/-- Encode `ListResourcesTemplateResult`. -/
def encodeListResourcesTemplateResult (r : ListResourcesTemplateResult) : JObj :=
  jmerge (encodePaginatedResult r.paginated_base)
    [("resourcesTemplates", .arr (r.resources_templates.map encodeResourceTemplate))]

/-- Encode `ReadResourceResult`. -/
def encodeReadResourceResult (r : ReadResourceResult) : JObj :=
  [("contents", .arr (r.contents.map encodeContentsResource))]

/-- Encode `ListPromptsResult`. -/
def encodeListPromptsResult (r : ListPromptsResult) : JObj :=
  jmerge (encodePaginatedResult r.paginated_base)
    [("prompts", .arr (r.prompts.map encodePrompt))]

/-- Encode `GetPromptResult`. -/
def encodeGetPromptResult (r : GetPromptResult) : JObj :=
  joptF "description" (r.description.map .str)
    ++ [("messages", .arr (r.messages.map encodePromptMessage))]

/-- Encode `ToolInputSchema` (flattened into the tagged object). -/
def encodeToolInputSchema (s : ToolInputSchema) : JObj :=
  joptF "properties" (s.properties.map .obj)
    ++ [("required", .arr (s.required.map .str))]

/-- Encode `ToolInputSchemaType` (internally tagged by "type"). -/
def encodeToolInputSchemaType : ToolInputSchemaType → Json
  | .Object s => .obj (jmerge [("type", .str "object")] (encodeToolInputSchema s))

/-- Encode `Tool`. -/
def encodeTool (t : Tool) : Json :=
  .obj ([("name", .str t.name)]
    ++ joptF "description" (t.description.map .str)
    ++ [("inputSchema", encodeToolInputSchemaType t.input_schema)])

/-- Encode `ListToolsResult`. -/
def encodeListToolsResult (r : ListToolsResult) : JObj :=
  jmerge (encodePaginatedResult r.paginated_base)
    [("tools", .arr (r.tools.map encodeTool))]

/-- Encode `CallToolResult`. -/
def encodeCallToolResult (r : CallToolResult) : JObj :=
  [("content", .arr (r.content.map encodeCallToolContent))]
    ++ joptF "isError" (r.is_error.map .bool)

/-- Encode `CallToolRequestParams`. -/
def encodeCallToolRequestParams (p : CallToolRequestParams) : JObj :=
  [("name", .str p.name)] ++ joptF "arguments" (p.arguments.map .obj)

/-- Encode `GetPromptRequestParams`. -/
def encodeGetPromptRequestParams (p : GetPromptRequestParams) : JObj :=
  [("name", .str p.name)]
    ++ joptF "arguments"
      (p.arguments.map (fun l => .obj (l.map (fun kv => (kv.1, .str kv.2)))))

/-- Encode `SetLevelRequestParams`. -/
def encodeSetLevelRequestParams (p : SetLevelRequestParams) : JObj :=
  [("level", encodeLoggingLevel p.level)]

/-- Encode `ModelHint`. -/
def encodeModelHint (h : ModelHint) : Json :=
  .obj (joptF "name" (h.name.map .str))

/-- Encode `ModelPreferences`. -/
def encodeModelPreferences (p : ModelPreferences) : Json :=
  .obj (joptF "hints" (p.hints.map (fun l => .arr (l.map encodeModelHint)))
    ++ [("costPriority", encodeOrderedFloat32 p.cost_priority),
        ("speedPriority", encodeOrderedFloat32 p.speed_priority),
        ("intelligencePriority", encodeOrderedFloat32 p.intelligence_priority)])

/-- Encode `SamplingMessage` (also used flattened in
`CreateMessageResult`). -/
def encodeSamplingMessage (m : SamplingMessage) : JObj :=
  [("role", encodeRole m.role), ("content", encodeSamplingMessageContent m.content)]

/-- Encode `CreateMessageRequestParams`. -/
def encodeCreateMessageRequestParams (p : CreateMessageRequestParams) : JObj :=
  [("messages", .arr (p.messages.map (fun m => .obj (encodeSamplingMessage m))))]
    ++ joptF "modelPreferences" (p.model_preferences.map encodeModelPreferences)
    ++ joptF "systemPrompt" (p.system_prompt.map .str)
    ++ joptF "temperature" (p.temperature.map encodeOrderedFloat32)
    ++ joptF "maxTokens" (p.max_tokens.map (fun n => .num (Int.ofNat n)))
    ++ joptF "stopSequences" (p.stop_sequences.map (fun l => .arr (l.map .str)))
    ++ joptF "metadata" (p.metadata.map .obj)

/-- Encode `CreateMessageResult` (flattened `SamplingMessage` group
followed by the result's own fields). -/
def encodeCreateMessageResult (r : CreateMessageResult) : JObj :=
  jmerge (encodeSamplingMessage r.sampling_message)
    ([("model", .str r.model)]
      ++ joptF "stopReason" (r.stop_reason.map encodeStopReason))

/-- Encode `CompleteRequestRef` (internally tagged by "type"). -/
def encodeCompleteRequestRef : CompleteRequestRef → Json
  | .Resource uri => .obj [("type", .str "ref/resource"), ("uri", .str uri)]
  | .Prompt name => .obj [("type", .str "ref/prompt"), ("name", .str name)]

/-- Encode `CompleteRequestArgument`. -/
def encodeCompleteRequestArgument (a : CompleteRequestArgument) : Json :=
  .obj [("name", .str a.name), ("value", .str a.value)]

/-- Encode `CompleteRequestParams`. -/
def encodeCompleteRequestParams (p : CompleteRequestParams) : JObj :=
  [("ref", encodeCompleteRequestRef p.ref),
   ("argument", encodeCompleteRequestArgument p.argument)]

/-- Encode `CompleteResult`. -/
def encodeCompleteResult (r : CompleteResult) : JObj :=
  [("values", .arr (r.values.map .str))]
    ++ joptF "total" (r.total.map .num)
    ++ joptF "hasMore" (r.has_more.map .bool)

/-- Encode `Root`. -/
def encodeRoot (r : Root) : Json :=
  .obj ([("uri", .str r.uri)] ++ joptF "name" (r.name.map .str))

/-- Encode `ListRootResult`. -/
def encodeListRootResult (r : ListRootResult) : JObj :=
  [("roots", .arr (r.roots.map encodeRoot))]

/-- Encode `CancelledNotificationParams` (internally tagged content). -/
def encodeCancelledNotificationParams (p : CancelledNotificationParams) : JObj :=
  [("requestId", encodeRequestId p.request_id)]
    ++ joptF "reason" (p.reason.map .str)

/-- Encode `ProgressNotificationParams`. -/
def encodeProgressNotificationParams (p : ProgressNotificationParams) : JObj :=
  [("progressToken", encodeProgressToken p.progress_token),
   ("progress", .num p.progress)]
    ++ joptF "total" (p.total.map .num)

/-- Encode `ResourceUpdatedNotificationParams`. -/
def encodeResourceUpdatedNotificationParams
    (p : ResourceUpdatedNotificationParams) : JObj :=
  [("uri", .str p.uri)]

/-- Encode `LoggingMessageNotificationParams`. -/
def encodeLoggingMessageNotificationParams
    (p : LoggingMessageNotificationParams) : JObj :=
  [("level", encodeLoggingLevel p.level)]
    ++ joptF "logger" (p.logger.map .str)
    ++ [("data", p.data)]

/-- Encode `RequestParams`: adjacent tagging produces the two entries
`"method"` and `"params"`, with the method names fixed by the serde
renames (camelCase for the variants without an explicit rename). -/
def encodeRequestParams : RequestParams → JObj
  | .Initialize p => [("method", .str "initialize"), ("params", .obj (encodeInitializeRequestParams p))]
  | .Ping p => [("method", .str "ping"), ("params", .obj (encodeRequestBaseParams p.request_base))]
  | .Paginated none => [("method", .str "paginated"), ("params", .null)]
  | .Paginated (some p) => [("method", .str "paginated"), ("params", .obj (encodePaginatedRequestParams p))]
  | .ListResources p => [("method", .str "resources/list"), ("params", .obj (encodePaginatedRequestParams p.paginated_base))]
  | .ListResourceTemplate p => [("method", .str "resources/templates/list"), ("params", .obj (encodePaginatedRequestParams p.paginated_base))]
  | .ReadResource p => [("method", .str "resources/read"), ("params", .obj [("uri", .str p.uri)])]
  | .Subscribe p => [("method", .str "resources/subscribe"), ("params", .obj [("uri", .str p.uri)])]
  | .Unsubscribe p => [("method", .str "unsubscribe"), ("params", .obj [("uri", .str p.uri)])]
  | .ListPrompts p => [("method", .str "prompts/list"), ("params", .obj (encodePaginatedRequestParams p.paginated_base))]
  | .GetPrompt p => [("method", .str "prompts/get"), ("params", .obj (encodeGetPromptRequestParams p))]
  | .ListTools p => [("method", .str "tools/list"), ("params", .obj (encodePaginatedRequestParams p.paginated_base))]
  | .CallTool p => [("method", .str "tools/call"), ("params", .obj (encodeCallToolRequestParams p))]
  | .SetLevel p => [("method", .str "logging/setLevel"), ("params", .obj (encodeSetLevelRequestParams p))]
  | .CreateMessage p => [("method", .str "sampling/createMessage"), ("params", .obj (encodeCreateMessageRequestParams p))]
  | .CompleteRequest p => [("method", .str "completion/complete"), ("params", .obj (encodeCompleteRequestParams p))]
  | .ListRoots p => [("method", .str "roots/list"), ("params", .obj (encodeRequestBaseParams p.request_base))]

/-- Encode `NotificationParams`: internal tagging writes the `"method"`
entry followed by the variant's own fields in the same object. -/
def encodeNotificationParams : NotificationParams → JObj
  | .Cancelled p => jmerge [("method", .str "notifications/cancelled")] (encodeCancelledNotificationParams p)
  | .Initialized p => jmerge [("method", .str "notifications/initialized")] (encodeNotificationBaseParams p.notification_base)
  | .Progress p => jmerge [("method", .str "notifications/progress")] (encodeProgressNotificationParams p)
  | .ResourceListChanged p => jmerge [("method", .str "notifications/resources/list_changed")] (encodeNotificationBaseParams p.notification_base)
  | .ResourceUpdated p => jmerge [("method", .str "notifications/resources/updated")] (encodeResourceUpdatedNotificationParams p)
  | .PromptListChanged p => jmerge [("method", .str "notifications/prompts/list_changed")] (encodeNotificationBaseParams p.notification_base)
  | .ToolListChanged p => jmerge [("method", .str "notifications/tools/list_changed")] (encodeNotificationBaseParams p.notifications_base)
  | .LoggingMessage p => jmerge [("method", .str "notifications/message")] (encodeLoggingMessageNotificationParams p)
  | .RootsListChanged p => jmerge [("method", .str "notifications/roots/list_changed")] (encodeNotificationBaseParams p.notification_base)

/-- Encode `ResultEnum` (untagged: just the variant's field group). -/
def encodeResultEnum : ResultEnum → JObj
  | .Empty r => encodeResultBase r
  | .Initialize r => encodeInitializeResult r
  | .Paginated r => encodePaginatedResult r
  | .ListResources r => encodeListResourcesResult r
  | .ListResourcesTemplate r => encodeListResourcesTemplateResult r
  | .ReadResource r => encodeReadResourceResult r
  | .ListPrompts r => encodeListPromptsResult r
  | .GetPrompt r => encodeGetPromptResult r
  | .ListTools r => encodeListToolsResult r
  | .CallTool r => encodeCallToolResult r
  | .CreateMessage r => encodeCreateMessageResult r
  | .Complete r => encodeCompleteResult r
  | .ListRoot r => encodeListRootResult r

/-- Encode `Result`: both flattened groups merged into one object. -/
def encodeResult (r : Result) : JObj :=
  jmerge (encodeResultBase r.base) (encodeResultEnum r.defined_fields)

/-- Encode `ErrorParams`. -/
def encodeErrorParams (e : ErrorParams) : JObj :=
  [("code", .num e.code), ("message", .str e.message)]
    ++ joptF "data" e.data

/-- Encode `JSONRPCRequest` (flattened params, then "jsonrpc", "id"). -/
def encodeJSONRPCRequest (r : JSONRPCRequest) : Json :=
  .obj (jmerge (encodeRequestParams r.params)
    [("jsonrpc", .str r.json_rpc), ("id", encodeRequestId r.id)])

/-- Encode `JSONRPCNotification`. -/
def encodeJSONRPCNotification (n : JSONRPCNotification) : Json :=
  .obj (jmerge (encodeNotificationParams n.params)
    [("jsonrpc", .str n.json_rpc)])

/-- Encode `JSONRPCResult`. -/
def encodeJSONRPCResult (r : JSONRPCResult) : Json :=
  .obj [("jsonrpc", .str r.json_rpc), ("id", encodeRequestId r.id),
        ("result", .obj (encodeResult r.result))]

/-- Encode `JSONRPCError`. -/
def encodeJSONRPCError (e : JSONRPCError) : Json :=
  .obj [("jsonrpc", .str e.json_rpc), ("id", encodeRequestId e.id),
        ("error", .obj (encodeErrorParams e.error))]

/-- Encode `JSONRPCResponse` (untagged). -/
def encodeJSONRPCResponse : JSONRPCResponse → Json
  | .Result r => encodeJSONRPCResult r
  | .Error e => encodeJSONRPCError e

/-- Encode `JSONRPCMessage` (untagged). -/
def encodeJSONRPCMessage : JSONRPCMessage → Json
  | .Request r => encodeJSONRPCRequest r
  | .Notification n => encodeJSONRPCNotification n
  | .Response r => encodeJSONRPCResponse r

/-! ## Decoding (serde `Deserialize` derived behaviour)

`decodeX : Json → Option X` for standalone values, `JObj → Option X` for
flattened field groups (which read the surrounding object). Structs
ignore unknown keys; a required field fails when absent; an `Option`
field is `none` when absent or JSON `null`. -/

/-- Decode a JSON string. -/
def decStr : Json → Option String
  | .str s => some s
  | _ => none

/-- Decode an `i64` (integer-valued JSON numbers only). -/
def decInt : Json → Option Int
  | .num n => some n
  | _ => none

/-- Decode a `u64`. -/
def decNat : Json → Option Nat
  | .num n => if 0 ≤ n then some n.toNat else none
  | _ => none

/-- Decode a JSON bool. -/
def decBool : Json → Option Bool
  | .bool b => some b
  | _ => none

/-- Decode a JSON object (a `HashMap<String, Value>` keeps its entries
verbatim). -/
def decObj : Json → Option JObj
  | .obj o => some o
  | _ => none

/-- Decode a JSON array elementwise. -/
def decArr (d : Json → Option α) : Json → Option (List α)
  | .arr xs => xs.mapM d
  | _ => none

/-- Decode a `HashMap<String, String>`. -/
def decStrStrMap : Json → Option (List (String × String))
  | .obj o => o.mapM (fun kv => (decStr kv.2).map (fun s => (kv.1, s)))
  | _ => none

/-- Required struct field: absent key fails. -/
def decReqF (o : JObj) (k : String) (d : Json → Option α) : Option α :=
  (List.lookup k o).bind d

/-- `Option` struct field: absent key or JSON `null` is `none`; any
other value must decode. -/
def decOptF (o : JObj) (k : String) (d : Json → Option α) : Option (Option α) :=
  match List.lookup k o with
  | none => some none
  | some .null => some none
  | some v => (d v).map some

/-- Decode `ProgressToken` (untagged). -/
def decodeProgressToken : Json → Option ProgressToken
  | .str s => some (.String s)
  | .num n => some (.Number n)
  | _ => none

/-- Decode `RequestId` (untagged). -/
def decodeRequestId : Json → Option RequestId
  | .str s => some (.String s)
  | .num n => some (.Number n)
  | _ => none

/-- Decode `ProtocolVersion`. -/
def decodeProtocolVersion : Json → Option ProtocolVersion
  | .str s => if s = "2024-11-05" then some .Mcp2024_11_05 else none
  | _ => none

/-- Decode `Role`. -/
def decodeRole : Json → Option Role
  | .str s =>
    if s = "user" then some .User
    else if s = "assistant" then some .Assistant
    else none
  | _ => none

/-- Decode `LoggingLevel`: the untagged unit variants are tried in
order and each deserializes only from JSON `null`, so `null` yields
`Debug` and every other value — any string included — fails. -/
def decodeLoggingLevel : Json → Option LoggingLevel
  | .null => some .Debug
  | _ => none

/-- Decode `StopReason`: `null` matches the first unit variant
`EndTurn`; any string matches the `String` fallback variant. -/
def decodeStopReason : Json → Option StopReason
  | .null => some .EndTurn
  | .str s => some (.String s)
  | _ => none

/-- Decode `OrderedFloat<f32>` (accepts integer- or float-valued
numbers, as `f32::deserialize` does). -/
def decodeOrderedFloat32 : Json → Option OrderedFloat32
  | .num n => some ⟨(n : Rat)⟩
  | .fnum q => some ⟨q⟩
  | _ => none

/-- Decode `RequestBaseMeta`. -/
def decodeRequestBaseMeta (j : Json) : Option RequestBaseMeta := do
  let o ← decObj j
  let pt ← decOptF o "progressToken" decodeProgressToken
  pure ⟨pt⟩

/-- Decode `RequestBaseParams` from the surrounding object: the known
field `_meta` is consumed, the flattened map takes every remaining
entry. -/
def decodeRequestBaseParams (o : JObj) : Option RequestBaseParams := do
  let m ← decOptF o "_meta" decodeRequestBaseMeta
  pure ⟨m, jerase o "_meta"⟩

/-- Decode `NotificationBaseParams` from the surrounding object. -/
def decodeNotificationBaseParams (o : JObj) : Option NotificationBaseParams := do
  let m ← decOptF o "_meta" decObj
  pure ⟨m, jerase o "_meta"⟩

/-- Decode `ResultBase` from the surrounding object: both fields are
effectively optional, so any object with a well-formed (or absent)
`_meta` entry succeeds. -/
def decodeResultBase (o : JObj) : Option ResultBase := do
  let m ← decOptF o "_meta" decObj
  pure ⟨m, jerase o "_meta"⟩

/-- Decode `PaginatedRequestParams`: the plain field `cursor` is
consumed before the flattened base reads the rest. -/
def decodePaginatedRequestParams (o : JObj) : Option PaginatedRequestParams := do
  let c ← decOptF o "cursor" decStr
  let rb ← decodeRequestBaseParams (jerase o "cursor")
  pure ⟨rb, c⟩

/-- Decode `RootCapabilities`. -/
def decodeRootCapabilities (j : Json) : Option RootCapabilities := do
  let o ← decObj j
  let lc ← decOptF o "listChanged" decBool
  pure ⟨lc⟩

/-- Decode `ClientCapabilities`. -/
def decodeClientCapabilities (j : Json) : Option ClientCapabilities := do
  let o ← decObj j
  let e ← decOptF o "experimental" decObj
  let r ← decOptF o "roots" decodeRootCapabilities
  let s ← decOptF o "sampling" decObj
  pure ⟨e, r, s⟩

/-- Decode `ServerCapabilities`. -/
def decodeServerCapabilities (j : Json) : Option ServerCapabilities := do
  let o ← decObj j
  let e ← decOptF o "experimental" decObj
  let l ← decOptF o "logging" decObj
  let p ← decOptF o "prompts" decObj
  let r ← decOptF o "resources" decObj
  let t ← decOptF o "tools" decObj
  pure ⟨e, l, p, r, t⟩

/-- Decode `Implementation`. -/
def decodeImplementation (j : Json) : Option Implementation := do
  let o ← decObj j
  let n ← decReqF o "name" decStr
  let v ← decReqF o "version" decStr
  pure ⟨n, v⟩

/-- Decode `InitializeRequestParams`. -/
def decodeInitializeRequestParams (j : Json) : Option InitializeRequestParams := do
  let o ← decObj j
  let pv ← decReqF o "protocolVersion" decodeProtocolVersion
  let c ← decReqF o "capabilities" decodeClientCapabilities
  let ci ← decReqF o "clientInfo" decodeImplementation
  pure ⟨pv, c, ci⟩

/-- Decode `InitializeResult` from the surrounding (result) object. -/
def decodeInitializeResult (o : JObj) : Option InitializeResult := do
  let pv ← decReqF o "protocolVersion" decodeProtocolVersion
  let c ← decReqF o "capabilities" decodeServerCapabilities
  let si ← decReqF o "serverInfo" decodeImplementation
  let ins ← decOptF o "instructions" decStr
  pure ⟨pv, c, si, ins⟩

/-- Decode `Annotations`. -/
def decodeAnnotations (j : Json) : Option Annotations := do
  let o ← decObj j
  let a ← decOptF o "audience" (decArr decodeRole)
  let p ← decOptF o "priority" decInt
  pure ⟨a, p⟩

/-- Decode `AnnotatedBase` from the surrounding object. -/
def decodeAnnotatedBase (o : JObj) : Option AnnotatedBase := do
  let a ← decOptF o "annotations" decodeAnnotations
  pure ⟨a⟩

/-- Decode `Resource`. -/
def decodeResource (j : Json) : Option Resource := do
  let o ← decObj j
  let ab ← decodeAnnotatedBase o
  let uri ← decReqF o "uri" decStr
  let name ← decReqF o "name" decStr
  let d ← decOptF o "description" decStr
  let mt ← decOptF o "mimeType" decStr
  pure ⟨ab, uri, name, d, mt⟩

/-- Decode `ResourceTemplate`. -/
def decodeResourceTemplate (j : Json) : Option ResourceTemplate := do
  let o ← decObj j
  let ab ← decodeAnnotatedBase o
  let ut ← decReqF o "uriTemplate" decStr
  let name ← decReqF o "name" decStr
  let d ← decOptF o "description" decStr
  let mt ← decOptF o "mimeType" decStr
  pure ⟨ab, ut, name, d, mt⟩

/-- Decode `ResourceContents` from the surrounding object. -/
def decodeResourceContents (o : JObj) : Option ResourceContents := do
  let uri ← decReqF o "uri" decStr
  let mt ← decOptF o "mimeType" decStr
  pure ⟨uri, mt⟩

/-- Decode `TextResourceContents`. -/
def decodeTextResourceContents (j : Json) : Option TextResourceContents := do
  let o ← decObj j
  let base ← decodeResourceContents o
  let t ← decReqF o "text" decStr
  pure ⟨base, t⟩

/-- Decode `BlobResourceContents`. -/
def decodeBlobResourceContents (j : Json) : Option BlobResourceContents := do
  let o ← decObj j
  let base ← decodeResourceContents o
  let b ← decReqF o "blob" decStr
  pure ⟨base, b⟩

/-- Decode `ContentsResource` (untagged, `Text` first). -/
def decodeContentsResource (j : Json) : Option ContentsResource :=
  ((decodeTextResourceContents j).map .Text)
    <|> ((decodeBlobResourceContents j).map .Blob)

/-- Decode `EmbeddedResourceEnum` (untagged, `Text` first). -/
def decodeEmbeddedResourceEnum (j : Json) : Option EmbeddedResourceEnum :=
  ((decodeTextResourceContents j).map .Text)
    <|> ((decodeBlobResourceContents j).map .Blob)

/-- Decode `TextContent` from the surrounding object. -/
def decodeTextContent (o : JObj) : Option TextContent := do
  let ab ← decodeAnnotatedBase o
  let t ← decReqF o "text" decStr
  pure ⟨ab, t⟩

/-- Decode `ImageContent` from the surrounding object. -/
def decodeImageContent (o : JObj) : Option ImageContent := do
  let ab ← decodeAnnotatedBase o
  let d ← decReqF o "data" decStr
  let mt ← decReqF o "mimeType" decStr
  pure ⟨ab, d, mt⟩

/-- Decode `EmbeddedResource` from the surrounding object. -/
def decodeEmbeddedResource (o : JObj) : Option EmbeddedResource := do
  let ab ← decodeAnnotatedBase o
  let r ← decReqF o "resource" decodeEmbeddedResourceEnum
  pure ⟨ab, r⟩

/-- Decode `PromptMessageContent` (internally tagged by "type"; the tag
entry is removed before the variant's fields are read). -/
def decodePromptMessageContent (j : Json) : Option PromptMessageContent := do
  let o ← decObj j
  let t ← decReqF o "type" decStr
  let rest := jerase o "type"
  if t = "text" then (decodeTextContent rest).map .Text
  else if t = "image" then (decodeImageContent rest).map .Image
  else if t = "resource" then (decodeEmbeddedResource rest).map .Embedded
  else none

/-- Decode `SamplingMessageContent` (internally tagged by "type"). -/
def decodeSamplingMessageContent (j : Json) : Option SamplingMessageContent := do
  let o ← decObj j
  let t ← decReqF o "type" decStr
  let rest := jerase o "type"
  if t = "text" then (decodeTextContent rest).map .Text
  else if t = "image" then (decodeImageContent rest).map .Image
  else none

/-- Decode `CallToolContent` (internally tagged by "type"). -/
def decodeCallToolContent (j : Json) : Option CallToolContent := do
  let o ← decObj j
  let t ← decReqF o "type" decStr
  let rest := jerase o "type"
  if t = "text" then (decodeTextContent rest).map .Text
  else if t = "image" then (decodeImageContent rest).map .Image
  else if t = "resource" then (decodeEmbeddedResource rest).map .Embedded
  else none

/-- Decode `PromptMessage`. -/
def decodePromptMessage (j : Json) : Option PromptMessage := do
  let o ← decObj j
  let r ← decReqF o "role" decodeRole
  let c ← decReqF o "content" decodePromptMessageContent
  pure ⟨r, c⟩

/-- Decode `PromptArgument`. -/
def decodePromptArgument (j : Json) : Option PromptArgument := do
  let o ← decObj j
  let n ← decReqF o "name" decStr
  let d ← decOptF o "description" decStr
  let r ← decOptF o "required" decBool
  pure ⟨n, d, r⟩

/-- Decode `Prompt`. -/
def decodePrompt (j : Json) : Option Prompt := do
  let o ← decObj j
  let n ← decReqF o "name" decStr
  let d ← decOptF o "description" decStr
  let a ← decOptF o "arguments" (decArr decodePromptArgument)
  pure ⟨n, d, a⟩

/-- Decode `PaginatedResult` from the surrounding object. -/
def decodePaginatedResult (o : JObj) : Option PaginatedResult := do
  let nc ← decOptF o "nextCursor" decStr
  pure ⟨nc⟩

/-- Decode `ListResourcesResult` from the surrounding object. -/
def decodeListResourcesResult (o : JObj) : Option ListResourcesResult := do
  let pb ← decodePaginatedResult (jerase o "resources")
  let rs ← decReqF o "resources" (decArr decodeResource)
  pure ⟨pb, rs⟩

/-- Decode `ListResourcesTemplateResult` from the surrounding object. -/
def decodeListResourcesTemplateResult (o : JObj) : Option ListResourcesTemplateResult := do
  let pb ← decodePaginatedResult (jerase o "resourcesTemplates")
  let rs ← decReqF o "resourcesTemplates" (decArr decodeResourceTemplate)
  pure ⟨pb, rs⟩

/-- Decode `ReadResourceResult` from the surrounding object. -/
def decodeReadResourceResult (o : JObj) : Option ReadResourceResult := do
  let cs ← decReqF o "contents" (decArr decodeContentsResource)
  pure ⟨cs⟩

/-- Decode `ListPromptsResult` from the surrounding object. -/
def decodeListPromptsResult (o : JObj) : Option ListPromptsResult := do
  let pb ← decodePaginatedResult (jerase o "prompts")
  let ps ← decReqF o "prompts" (decArr decodePrompt)
  pure ⟨pb, ps⟩

/-- Decode `GetPromptResult` from the surrounding object. -/
def decodeGetPromptResult (o : JObj) : Option GetPromptResult := do
  let d ← decOptF o "description" decStr
  let ms ← decReqF o "messages" (decArr decodePromptMessage)
  pure ⟨d, ms⟩

/-- Decode `ToolInputSchema` from the surrounding object. -/
def decodeToolInputSchema (o : JObj) : Option ToolInputSchema := do
  let p ← decOptF o "properties" decObj
  let r ← decReqF o "required" (decArr decStr)
  pure ⟨p, r⟩

/-- Decode `ToolInputSchemaType` (internally tagged by "type"). -/
def decodeToolInputSchemaType (j : Json) : Option ToolInputSchemaType := do
  let o ← decObj j
  let t ← decReqF o "type" decStr
  if t = "object" then (decodeToolInputSchema (jerase o "type")).map .Object
  else none

/-- Decode `Tool`. -/
def decodeTool (j : Json) : Option Tool := do
  let o ← decObj j
  let n ← decReqF o "name" decStr
  let d ← decOptF o "description" decStr
  let s ← decReqF o "inputSchema" decodeToolInputSchemaType
  pure ⟨n, d, s⟩

/-- Decode `ListToolsResult` from the surrounding object. -/
def decodeListToolsResult (o : JObj) : Option ListToolsResult := do
  let pb ← decodePaginatedResult (jerase o "tools")
  let ts ← decReqF o "tools" (decArr decodeTool)
  pure ⟨pb, ts⟩

/-- Decode `CallToolResult` from the surrounding object. -/
def decodeCallToolResult (o : JObj) : Option CallToolResult := do
  let c ← decReqF o "content" (decArr decodeCallToolContent)
  let ie ← decOptF o "isError" decBool
  pure ⟨c, ie⟩

/-- Decode `CallToolRequestParams`. -/
def decodeCallToolRequestParams (j : Json) : Option CallToolRequestParams := do
  let o ← decObj j
  let n ← decReqF o "name" decStr
  let a ← decOptF o "arguments" decObj
  pure ⟨n, a⟩

/-- Decode `GetPromptRequestParams`. -/
def decodeGetPromptRequestParams (j : Json) : Option GetPromptRequestParams := do
  let o ← decObj j
  let n ← decReqF o "name" decStr
  let a ← decOptF o "arguments" decStrStrMap
  pure ⟨n, a⟩

/-- Decode `SetLevelRequestParams`. -/
def decodeSetLevelRequestParams (j : Json) : Option SetLevelRequestParams := do
  let o ← decObj j
  let l ← decReqF o "level" decodeLoggingLevel
  pure ⟨l⟩

/-- Decode `ModelHint`. -/
def decodeModelHint (j : Json) : Option ModelHint := do
  let o ← decObj j
  let n ← decOptF o "name" decStr
  pure ⟨n⟩

/-- Decode `ModelPreferences`. -/
def decodeModelPreferences (j : Json) : Option ModelPreferences := do
  let o ← decObj j
  let h ← decOptF o "hints" (decArr decodeModelHint)
  let c ← decReqF o "costPriority" decodeOrderedFloat32
  let s ← decReqF o "speedPriority" decodeOrderedFloat32
  let i ← decReqF o "intelligencePriority" decodeOrderedFloat32
  pure ⟨h, c, s, i⟩

/-- Decode the `SamplingMessage` field group from the surrounding
object. -/
def decodeSamplingMessageF (o : JObj) : Option SamplingMessage := do
  let r ← decReqF o "role" decodeRole
  let c ← decReqF o "content" decodeSamplingMessageContent
  pure ⟨r, c⟩

/-- Decode a standalone `SamplingMessage`. -/
def decodeSamplingMessage (j : Json) : Option SamplingMessage := do
  let o ← decObj j
  decodeSamplingMessageF o

/-- Decode `CreateMessageRequestParams`. -/
def decodeCreateMessageRequestParams (j : Json) : Option CreateMessageRequestParams := do
  let o ← decObj j
  let ms ← decReqF o "messages" (decArr decodeSamplingMessage)
  let mp ← decOptF o "modelPreferences" decodeModelPreferences
  let sp ← decOptF o "systemPrompt" decStr
  let t ← decOptF o "temperature" decodeOrderedFloat32
  let mt ← decOptF o "maxTokens" decNat
  let ss ← decOptF o "stopSequences" (decArr decStr)
  let md ← decOptF o "metadata" decObj
  pure ⟨ms, mp, sp, t, mt, ss, md⟩

/-- Decode `CreateMessageResult` from the surrounding object. -/
def decodeCreateMessageResult (o : JObj) : Option CreateMessageResult := do
  let sm ← decodeSamplingMessageF o
  let m ← decReqF o "model" decStr
  let sr ← decOptF o "stopReason" decodeStopReason
  pure ⟨sm, m, sr⟩

/-- Decode `CompleteRequestRef` (internally tagged by "type"). -/
def decodeCompleteRequestRef (j : Json) : Option CompleteRequestRef := do
  let o ← decObj j
  let t ← decReqF o "type" decStr
  let rest := jerase o "type"
  if t = "ref/resource" then (decReqF rest "uri" decStr).map .Resource
  else if t = "ref/prompt" then (decReqF rest "name" decStr).map .Prompt
  else none

/-- Decode `CompleteRequestArgument`. -/
def decodeCompleteRequestArgument (j : Json) : Option CompleteRequestArgument := do
  let o ← decObj j
  let n ← decReqF o "name" decStr
  let v ← decReqF o "value" decStr
  pure ⟨n, v⟩

/-- Decode `CompleteRequestParams`. -/
def decodeCompleteRequestParams (j : Json) : Option CompleteRequestParams := do
  let o ← decObj j
  let r ← decReqF o "ref" decodeCompleteRequestRef
  let a ← decReqF o "argument" decodeCompleteRequestArgument
  pure ⟨r, a⟩

/-- Decode `CompleteResult` from the surrounding object. -/
def decodeCompleteResult (o : JObj) : Option CompleteResult := do
  let vs ← decReqF o "values" (decArr decStr)
  let t ← decOptF o "total" decInt
  let hm ← decOptF o "hasMore" decBool
  pure ⟨vs, t, hm⟩

/-- Decode `Root`. -/
def decodeRoot (j : Json) : Option Root := do
  let o ← decObj j
  let uri ← decReqF o "uri" decStr
  let n ← decOptF o "name" decStr
  pure ⟨uri, n⟩

/-- Decode `ListRootResult` from the surrounding object. -/
def decodeListRootResult (o : JObj) : Option ListRootResult := do
  let rs ← decReqF o "roots" (decArr decodeRoot)
  pure ⟨rs⟩

/-- Decode `CancelledNotificationParams` from the surrounding object. -/
def decodeCancelledNotificationParams (o : JObj) : Option CancelledNotificationParams := do
  let rid ← decReqF o "requestId" decodeRequestId
  let r ← decOptF o "reason" decStr
  pure ⟨rid, r⟩

/-- Decode `ProgressNotificationParams` from the surrounding object. -/
def decodeProgressNotificationParams (o : JObj) : Option ProgressNotificationParams := do
  let pt ← decReqF o "progressToken" decodeProgressToken
  let p ← decReqF o "progress" decInt
  let t ← decOptF o "total" decInt
  pure ⟨pt, p, t⟩

/-- Decode `ResourceUpdatedNotificationParams` from the surrounding
object. -/
def decodeResourceUpdatedNotificationParams (o : JObj) :
    Option ResourceUpdatedNotificationParams := do
  let uri ← decReqF o "uri" decStr
  pure ⟨uri⟩

/-- Decode `LoggingMessageNotificationParams` from the surrounding
object. -/
def decodeLoggingMessageNotificationParams (o : JObj) :
    Option LoggingMessageNotificationParams := do
  let l ← decReqF o "level" decodeLoggingLevel
  let lg ← decOptF o "logger" decStr
  let d ← decReqF o "data" some
  pure ⟨l, lg, d⟩

/-- Decode `RequestParams`: adjacent tagging reads the `"method"` entry
to select the variant and the `"params"` entry as its content. A
missing content entry fails for every data-carrying variant except the
`Option`-typed `Paginated`, whose content then deserializes from the
missing-field deserializer as `None`; an unrecognized method name
fails. -/
def decodeRequestParams (o : JObj) : Option RequestParams := do
  let m ← decReqF o "method" decStr
  let pv ←
    match List.lookup "params" o with
    | none => if m = "paginated" then some Json.null else none
    | some v => some v
  if m = "initialize" then (decodeInitializeRequestParams pv).map .Initialize
  else if m = "ping" then do
    let po ← decObj pv
    (decodeRequestBaseParams po).map (fun b => .Ping ⟨b⟩)
  else if m = "paginated" then
    match pv with
    | .null => some (.Paginated none)
    | _ => do
      let po ← decObj pv
      (decodePaginatedRequestParams po).map (fun p => .Paginated (some p))
  else if m = "resources/list" then do
    let po ← decObj pv
    (decodePaginatedRequestParams po).map (fun p => .ListResources ⟨p⟩)
  else if m = "resources/templates/list" then do
    let po ← decObj pv
    (decodePaginatedRequestParams po).map (fun p => .ListResourceTemplate ⟨p⟩)
  else if m = "resources/read" then do
    let po ← decObj pv
    (decReqF po "uri" decStr).map (fun u => .ReadResource ⟨u⟩)
  else if m = "resources/subscribe" then do
    let po ← decObj pv
    (decReqF po "uri" decStr).map (fun u => .Subscribe ⟨u⟩)
  else if m = "unsubscribe" then do
    let po ← decObj pv
    (decReqF po "uri" decStr).map (fun u => .Unsubscribe ⟨u⟩)
  else if m = "prompts/list" then do
    let po ← decObj pv
    (decodePaginatedRequestParams po).map (fun p => .ListPrompts ⟨p⟩)
  else if m = "prompts/get" then (decodeGetPromptRequestParams pv).map .GetPrompt
  else if m = "tools/list" then do
    let po ← decObj pv
    (decodePaginatedRequestParams po).map (fun p => .ListTools ⟨p⟩)
  else if m = "tools/call" then (decodeCallToolRequestParams pv).map .CallTool
  else if m = "logging/setLevel" then (decodeSetLevelRequestParams pv).map .SetLevel
  else if m = "sampling/createMessage" then (decodeCreateMessageRequestParams pv).map .CreateMessage
  else if m = "completion/complete" then (decodeCompleteRequestParams pv).map .CompleteRequest
  else if m = "roots/list" then do
    let po ← decObj pv
    (decodeRequestBaseParams po).map (fun b => .ListRoots ⟨b⟩)
  else none

/-- Decode `NotificationParams`: internal tagging reads the `"method"`
entry and hands the object minus that entry to the variant's fields. -/
def decodeNotificationParams (o : JObj) : Option NotificationParams := do
  let m ← decReqF o "method" decStr
  let rest := jerase o "method"
  if m = "notifications/cancelled" then (decodeCancelledNotificationParams rest).map .Cancelled
  else if m = "notifications/initialized" then
    (decodeNotificationBaseParams rest).map (fun b => .Initialized ⟨b⟩)
  else if m = "notifications/progress" then (decodeProgressNotificationParams rest).map .Progress
  else if m = "notifications/resources/list_changed" then
    (decodeNotificationBaseParams rest).map (fun b => .ResourceListChanged ⟨b⟩)
  else if m = "notifications/resources/updated" then
    (decodeResourceUpdatedNotificationParams rest).map .ResourceUpdated
  else if m = "notifications/prompts/list_changed" then
    (decodeNotificationBaseParams rest).map (fun b => .PromptListChanged ⟨b⟩)
  else if m = "notifications/tools/list_changed" then
    (decodeNotificationBaseParams rest).map (fun b => .ToolListChanged ⟨b⟩)
  else if m = "notifications/message" then
    (decodeLoggingMessageNotificationParams rest).map .LoggingMessage
  else if m = "notifications/roots/list_changed" then
    (decodeNotificationBaseParams rest).map (fun b => .RootsListChanged ⟨b⟩)
  else none

/-- Decode `ResultEnum` (untagged): the variants are tried in
declaration order, `Empty` first — and `Empty` is `ResultBase`, which
accepts any JSON object whose `_meta` entry (if present) is null or an
object. -/
def decodeResultEnum (o : JObj) : Option ResultEnum :=
  ((decodeResultBase o).map .Empty)
    <|> ((decodeInitializeResult o).map .Initialize)
    <|> ((decodePaginatedResult o).map .Paginated)
    <|> ((decodeListResourcesResult o).map .ListResources)
    <|> ((decodeListResourcesTemplateResult o).map .ListResourcesTemplate)
    <|> ((decodeReadResourceResult o).map .ReadResource)
    <|> ((decodeListPromptsResult o).map .ListPrompts)
    <|> ((decodeGetPromptResult o).map .GetPrompt)
    <|> ((decodeListToolsResult o).map .ListTools)
    <|> ((decodeCallToolResult o).map .CallTool)
    <|> ((decodeCreateMessageResult o).map .CreateMessage)
    <|> ((decodeCompleteResult o).map .Complete)
    <|> ((decodeListRootResult o).map .ListRoot)

/-- Decode `Result`: both flattened groups read the same object (a
flattened group does not consume entries from the shared buffer). -/
def decodeResult (o : JObj) : Option Result := do
  let b ← decodeResultBase o
  let df ← decodeResultEnum o
  pure ⟨b, df⟩

/-- Decode `ErrorParams`. -/
def decodeErrorParams (j : Json) : Option ErrorParams := do
  let o ← decObj j
  let c ← decReqF o "code" decInt
  let m ← decReqF o "message" decStr
  let d ← decOptF o "data" some
  pure ⟨c, m, d⟩

/-- Decode `JSONRPCRequest`. -/
def decodeJSONRPCRequest (j : Json) : Option JSONRPCRequest := do
  let o ← decObj j
  let p ← decodeRequestParams o
  let jr ← decReqF o "jsonrpc" decStr
  let id ← decReqF o "id" decodeRequestId
  pure ⟨p, jr, id⟩

/-- Decode `JSONRPCNotification`: the plain field `jsonrpc` is consumed
before the flattened, internally tagged params read the rest. -/
def decodeJSONRPCNotification (j : Json) : Option JSONRPCNotification := do
  let o ← decObj j
  let jr ← decReqF o "jsonrpc" decStr
  let p ← decodeNotificationParams (jerase o "jsonrpc")
  pure ⟨p, jr⟩

/-- Decode `JSONRPCResult`. -/
def decodeJSONRPCResult (j : Json) : Option JSONRPCResult := do
  let o ← decObj j
  let jr ← decReqF o "jsonrpc" decStr
  let id ← decReqF o "id" decodeRequestId
  let r ← decReqF o "result" (fun v => do decodeResult (← decObj v))
  pure ⟨jr, id, r⟩

/-- Decode `JSONRPCError`. -/
def decodeJSONRPCError (j : Json) : Option JSONRPCError := do
  let o ← decObj j
  let jr ← decReqF o "jsonrpc" decStr
  let id ← decReqF o "id" decodeRequestId
  let e ← decReqF o "error" decodeErrorParams
  pure ⟨jr, id, e⟩

/-- Decode `JSONRPCResponse` (untagged, success shape tried first). -/
def decodeJSONRPCResponse (j : Json) : Option JSONRPCResponse :=
  ((decodeJSONRPCResult j).map .Result)
    <|> ((decodeJSONRPCError j).map .Error)

/-- Decode `JSONRPCMessage` (untagged: request, then notification, then
response). -/
def decodeJSONRPCMessage (j : Json) : Option JSONRPCMessage :=
  ((decodeJSONRPCRequest j).map .Request)
    <|> ((decodeJSONRPCNotification j).map .Notification)
    <|> ((decodeJSONRPCResponse j).map .Response)

/-! ## Server model (src/mcp/server) -/

/-- `InitializeStatus` (server/mod.rs): per-session handshake status,
defaulting to `NotInitialized`. -/
inductive InitializeStatus where
  | NotInitialized
  | Initializing
  | Initialized
deriving DecidableEq

/-- `SessionId` (server/mod.rs). -/
abbrev SessionId := String

/-- `Message` (server/mod.rs): one mailbox item. -/
structure Message where
  session_id : SessionId
  sse_message : JSONRPCMessage

/-- `ClientConn` (server/mod.rs). The `send` half of the session's
mpsc mailbox channel is modelled as the list of queued messages. -/
structure ClientConn where
  session_id : SessionId
  initialize_status : InitializeStatus
  send : List Message
  capabilities : ClientCapabilities
  protocol_version : ProtocolVersion

/-- `Server` (server/mod.rs). `clients` is the session registry; the
`send_close_client` channel is transport plumbing not needed by the
claims and is omitted. -/
structure Server where
  port : Nat
  clients : List (SessionId × ClientConn)
  name : String
  version : String
  capabilities : ServerCapabilities

/-- `ApiError` (server/error.rs). The `IoError` payload is dropped. -/
inductive ApiError where
  | PoisonedLock
  | IoError
  | MissingClient
deriving DecidableEq

/-- `create_error_response` (server/utils.rs). -/
def create_error_response (id : RequestId) (code : Int) (message : String) :
    JSONRPCMessage :=
  .Response (.Error
    { json_rpc := JSONRPC_VERSION
      id := id
      error := { code := code, message := message, data := none } })

/-- `handle_initialize` (server/request.rs): builds the initialize
success response. `ResultBase::default()` is `{ meta := none, extra :=
[] }`; `server_info` is built from `server.name` twice — the `name`
field and the `version` field both receive the server's name. -/
def handle_initialize (server : Server) (_request : InitializeRequestParams)
    (_session_id : SessionId) (id : RequestId) : JSONRPCMessage :=
  .Response (.Result
    { json_rpc := JSONRPC_VERSION
      id := id
      result :=
        { base := { meta := none, extra := [] }
          defined_fields := .Initialize
            { protocol_version := LATEST_PROTOCOL_VERSION
              capabilities := server.capabilities
              server_info := { name := server.name, version := server.name }
              instructions := none } } })

/-- Outcome of `handle_request`: either the returned `JSONRPCMessage`
or a panic-equivalent abort (`unimplemented!()`). The `Err(ApiError)`
early exits happen before any state mutation and are handled by the
registry-level wrapper. -/
inductive HandleOutcome where
  | response (msg : JSONRPCMessage)
  | panic

/-- Effect of `handle_request` (server/request.rs) on the session's
locked `ClientConn`: an initialize request while `NotInitialized`
records the client capabilities, moves the status to `Initializing`
and falls through to `handle_initialize`; an initialize request in any
other status returns an invalid-request error without mutation; any
other request while `NotInitialized` returns the "Connection not
initialized" invalid-request error; otherwise dispatch reaches the
`unimplemented!()` arm and aborts. -/
def handle_request_conn (server : Server) (request : JSONRPCRequest)
    (conn : ClientConn) : HandleOutcome × ClientConn :=
  match request.params with
  | .Initialize init =>
    match conn.initialize_status with
    | .NotInitialized =>
      let conn' := { conn with
        initialize_status := .Initializing
        capabilities := init.capabilities }
      (.response ( handle_initialize server init conn.session_id request.id), conn')
    | .Initializing =>
      (.response (create_error_response request.id INVALID_REQUEST
        "Connection already initializing"), conn)
    | .Initialized =>
      (.response (create_error_response request.id INVALID_REQUEST
        "Connection already initialized"), conn)
  | _ =>
    match conn.initialize_status with
    | .NotInitialized =>
      (.response (create_error_response request.id INVALID_REQUEST
        "Connection not initialized"), conn)
    | _ => (.panic, conn)

/-- Replace the connection stored under a session id. -/
def update_client : List (SessionId × ClientConn) → SessionId → ClientConn →
    List (SessionId × ClientConn)
  | [], _, _ => []
  | (k, c) :: rest, sid, c' =>
    if k = sid then (k, c') :: rest else (k, c) :: update_client rest sid c'

/-- `handle_request` (server/request.rs) at the registry level: looks
the session up (`MissingClient` when absent) and applies the
per-connection effect. Lock poisoning cannot arise in the sequential
model. -/
def handle_request (server : Server) (request : JSONRPCRequest)
    (session_id : SessionId) : Except ApiError (HandleOutcome × Server) :=
  match List.lookup session_id server.clients with
  | none => .error .MissingClient
  | some conn =>
    let r := handle_request_conn server request conn
    .ok (r.1, { server with clients := update_client server.clients session_id r.2 })

/-- Outcome of `handle_notification` (`Result<()>` in the source): a
normal return, or a panic-equivalent abort (`todo!()`). -/
inductive NotifResult where
  | ok
  | panic

/-- Effect of `handle_notification` (server/notification.rs) on the
session's locked `ClientConn`: an `Initialized` notification sets the
status to `Initialized` in any state and then the function falls
through to an unconditional `todo!()`; every other notification hits
the `todo!()` match arm before mutating. Either way the call aborts. -/
def handle_notification_conn (request : JSONRPCNotification)
    (conn : ClientConn) : NotifResult × ClientConn :=
  match request.params with
  | .Initialized _ => (.panic, { conn with initialize_status := .Initialized })
  | _ => (.panic, conn)

/-- `handle_notification` (server/notification.rs) at the registry
level. -/
def handle_notification (server : Server) (request : JSONRPCNotification)
    (session_id : SessionId) : Except ApiError (NotifResult × Server) :=
  match List.lookup session_id server.clients with
  | none => .error .MissingClient
  | some conn =>
    let r := handle_notification_conn request conn
    .ok (r.1, { server with clients := update_client server.clients session_id r.2 })

/-- `SseState` (server/sse/mod.rs). -/
structure SseState where
  mcp_server : Server
  endpoint : String

/-- `SessionQuery` (server/sse/mod.rs): the `sessionId` query
parameter. -/
structure SessionQuery where
  session_id : String

/-- HTTP status of the submission response. -/
inductive StatusCode where
  | OK
deriving DecidableEq

/-- `message_handler` (server/sse/mod.rs): the POST /messages handler.
The source logs the decoded message, evaluates the session id as a
discarded expression statement, and returns `StatusCode::OK`; it never
calls `handle_request`/`handle_notification` and never sends to any
session's mailbox, so the state is returned unchanged. -/
def message_handler (state : SseState) (_session_query : SessionQuery)
    (_message : JSONRPCMessage) : SseState × StatusCode :=
  (state, .OK)

/-! ## Definitions supporting the claims -/

/-- Whether a request is an initialize request. -/
def is_initialize : RequestParams → Bool
  | .Initialize _ => true
  | _ => false

/-- Rank of a handshake status in the order `NotInitialized <
Initializing < Initialized`. -/
def statusRank : InitializeStatus → Nat
  | .NotInitialized => 0
  | .Initializing => 1
  | .Initialized => 2

/-- The handshake order. -/
def statusLe (a b : InitializeStatus) : Prop := statusRank a ≤ statusRank b

/-- One inbound operation on a session: a request or a notification. -/
inductive SessionOp where
  | req (r : JSONRPCRequest)
  | notif (n : JSONRPCNotification)

/-- The connection state after one operation (panics abort the call
after the source's mutations, which this captures). -/
def apply_session_op (server : Server) (conn : ClientConn) : SessionOp → ClientConn
  | .req r => (handle_request_conn server r conn).2
  | .notif n => (handle_notification_conn n conn).2

/-- The sequence of handshake status values observed along a sequence
of operations, starting from the current one. -/
def status_trace (server : Server) (conn : ClientConn) :
    List SessionOp → List InitializeStatus
  | [] => [conn.initialize_status]
  | op :: ops =>
    conn.initialize_status :: status_trace server (apply_session_op server conn op) ops

/-- The `serverInfo` carried by an initialize success response, if the
message is one. -/
def response_server_info : JSONRPCMessage → Option Implementation
  | .Response (.Result r) =>
    match r.result.defined_fields with
    | .Initialize ir => some ir.server_info
    | _ => none
  | _ => none

/-- Whether a message is a success response whose result carries the
`Initialize` defined fields. -/
def result_is_initialize : JSONRPCMessage → Bool
  | .Response (.Result r) =>
    match r.result.defined_fields with
    | .Initialize _ => true
    | _ => false
  | _ => false

/-! ## Concrete fixtures used by witnesses and counterexamples -/

/-- Client capabilities declaring nothing. -/
def caps0 : ClientCapabilities := ⟨none, none, none⟩

/-- Server capabilities as built by `Server::new` (all `None`). -/
def servcaps0 : ServerCapabilities := ⟨none, none, none, none, none⟩

/-- A freshly created connection record (`ClientConn::new`). -/
def conn_notinit : ClientConn := ⟨"s1", .NotInitialized, [], caps0, .Mcp2024_11_05⟩

/-- The same session after a completed handshake. -/
def conn_initialized : ClientConn := { conn_notinit with initialize_status := .Initialized }

/-- A server with one registered, initialized session "s1". -/
def server0 : Server := ⟨3000, [("s1", conn_initialized)], "rust-mcp", "0.1.0", servcaps0⟩

/-- A server with one registered, not-yet-initialized session "s1". -/
def server_notinit : Server := ⟨3000, [("s1", conn_notinit)], "rust-mcp", "0.1.0", servcaps0⟩

/-- Initialize parameters as a client would send them. -/
def init_params0 : InitializeRequestParams :=
  ⟨.Mcp2024_11_05, caps0, ⟨"mcp-inspector", "0.0.1"⟩⟩

/-- A ping request with id 1. -/
def ping_request : JSONRPCRequest := ⟨.Ping ⟨⟨none, []⟩⟩, "2.0", .Number 1⟩

/-- An initialize request with id 1. -/
def init_request : JSONRPCRequest := ⟨.Initialize init_params0, "2.0", .Number 1⟩

/-- The initialize success response the server itself builds: the
round-trip counterexample input. -/
def c1_message : JSONRPCMessage := handle_initialize server0 init_params0 "s1" (.Number 1)

/-! ## Fidelity checks against the repository's own tests
(src/mcp/tests/schema_test.rs) -/

/-- The decoder reproduces `initialize_message_deserialize`. -/
theorem schema_test_initialize_request_decode :
    decodeJSONRPCRequest (.obj
      [("jsonrpc", .str "2.0"), ("id", .num 0), ("method", .str "initialize"),
       ("params", .obj
         [("protocolVersion", .str "2024-11-05"),
          ("capabilities", .obj [("sampling", .obj []), ("roots", .obj [])]),
          ("clientInfo", .obj
            [("name", .str "mcp-inspector"), ("version", .str "0.0.1")])])]) =
      some ⟨.Initialize ⟨.Mcp2024_11_05, ⟨none, some ⟨none⟩, some []⟩,
        ⟨"mcp-inspector", "0.0.1"⟩⟩, "2.0", .Number 0⟩ := rfl

/-- The decoder reproduces `initialized_notification_deserialize`. -/
theorem schema_test_initialized_notification_decode :
    decodeJSONRPCNotification
      (.obj [("jsonrpc", .str "2.0"), ("method", .str "notifications/initialized")]) =
      some ⟨.Initialized ⟨⟨none, []⟩⟩, "2.0"⟩ := rfl

/-! ## Handshake order lemmas -/

/-- The handshake order is reflexive. -/
theorem statusLe_refl (s : InitializeStatus) : statusLe s s := Nat.le_refl _

/-- The handshake order is transitive. -/
theorem statusLe_trans {a b c : InitializeStatus}
    (h1 : statusLe a b) (h2 : statusLe b c) : statusLe a c := Nat.le_trans h1 h2

/-- One request or notification never lowers the handshake status. -/
theorem status_step_le (server : Server) (conn : ClientConn) (op : SessionOp) :
    statusLe conn.initialize_status (apply_session_op server conn op).initialize_status := by
  cases op with
  | req r =>
    cases hp : r.params <;> cases hs : conn.initialize_status <;>
      simp [apply_session_op, handle_request_conn, hp, hs, statusLe, statusRank]
  | notif n =>
    cases hp : n.params <;> cases hs : conn.initialize_status <;>
      simp [apply_session_op, handle_notification_conn, hp, hs, statusLe, statusRank]

/-- Every status observed along a trace is at least the starting one. -/
theorem status_trace_head_le (server : Server) (ops : List SessionOp) :
    ∀ (conn : ClientConn) (x : InitializeStatus),
      x ∈ status_trace server conn ops → statusLe conn.initialize_status x := by
  induction ops with
  | nil =>
    intro conn x hx
    simp [status_trace] at hx
    subst hx
    exact statusLe_refl _
  | cons op ops ih =>
    intro conn x hx
    simp only [status_trace, List.mem_cons] at hx
    rcases hx with h | h
    · subst h; exact statusLe_refl _
    · exact statusLe_trans (status_step_le server conn op) (ih _ _ h)

/-! ## The claims -/

/-- C2: for every session and every sequence of `handle_request` and
`handle_notification` calls applied to it, the observed handshake
status values form a non-decreasing sequence under `NotInitialized <
Initializing < Initialized`; no operation moves the status backward. -/
theorem claim_c2 (server : Server) (conn : ClientConn) (ops : List SessionOp) :
    (status_trace server conn ops).Pairwise statusLe := by
  induction ops generalizing conn with
  | nil => simp [status_trace]
  | cons op ops ih =>
    simp only [status_trace]
    refine List.Pairwise.cons ?_ (ih _)
    intro x hx
    exact statusLe_trans (status_step_le server conn op)
      (status_trace_head_le server ops _ x hx)

/-- C3: while the session is `NotInitialized`, every non-initialize
request yields the invalid-request (-32600) error response with message
"Connection not initialized", and the connection record — status and
capabilities included — is left unchanged; no method handler runs. -/
theorem claim_c3 (server : Server) (request : JSONRPCRequest) (conn : ClientConn)
    (hstatus : conn.initialize_status = .NotInitialized)
    (hmethod : is_initialize request.params = false) :
    handle_request_conn server request conn =
      (.response (create_error_response request.id (-32600)
        "Connection not initialized"), conn) := by
  cases hp : request.params <;>
    simp_all [handle_request_conn, is_initialize, INVALID_REQUEST]

/-- C3 witness: a `ping` request on a fresh session. -/
theorem claim_c3_witness :
    handle_request_conn server0 ping_request conn_notinit =
      (.response (create_error_response ping_request.id (-32600)
        "Connection not initialized"), conn_notinit) :=
  claim_c3 server0 ping_request conn_notinit rfl rfl

/-- C4: an initialize request while the session is `Initializing` or
`Initialized` yields an invalid-request (-32600) error response and
leaves the connection record unchanged. -/
theorem claim_c4 (server : Server) (request : JSONRPCRequest)
    (init : InitializeRequestParams) (conn : ClientConn)
    (hparams : request.params = .Initialize init)
    (hstatus : conn.initialize_status ≠ .NotInitialized) :
    (∃ m, (handle_request_conn server request conn).1 =
        .response (create_error_response request.id (-32600) m))
      ∧ (handle_request_conn server request conn).2 = conn := by
  cases hs : conn.initialize_status with
  | NotInitialized => exact absurd hs hstatus
  | Initializing =>
    refine ⟨⟨"Connection already initializing", ?_⟩, ?_⟩ <;>
      simp [handle_request_conn, hparams, hs, INVALID_REQUEST]
  | Initialized =>
    refine ⟨⟨"Connection already initialized", ?_⟩, ?_⟩ <;>
      simp [handle_request_conn, hparams, hs, INVALID_REQUEST]

/-- C4 witness: a second initialize on an initialized session. -/
theorem claim_c4_witness :
    (∃ m, (handle_request_conn server0 init_request conn_initialized).1 =
        .response (create_error_response init_request.id (-32600) m))
      ∧ (handle_request_conn server0 init_request conn_initialized).2 = conn_initialized :=
  claim_c4 server0 init_request init_params0 conn_initialized rfl (by decide)

/-- C5 (failing input): a `ping` request with id 1 reaching the
dispatcher on the registered, initialized session "s1" produces no
response envelope at all — dispatch reaches the `unimplemented!()` arm
and aborts, contradicting the claim that exactly one response carrying
id 1 is produced. -/
theorem claim_c5 :
    handle_request server0 ping_request "s1" = .ok (.panic, server0) := rfl

/-- C6: an initialize request on a `NotInitialized` session stores the
client's declared capabilities and (trivially, the protocol version
type having a single inhabitant equal to the connection's default) the
client's requested protocol version in the connection record, and moves
the status to `Initializing`. -/
theorem claim_c6 (server : Server) (request : JSONRPCRequest)
    (init : InitializeRequestParams) (conn : ClientConn)
    (hparams : request.params = .Initialize init)
    (hstatus : conn.initialize_status = .NotInitialized) :
    ((handle_request_conn server request conn).2.initialize_status = .Initializing)
      ∧ ((handle_request_conn server request conn).2.capabilities = init.capabilities)
      ∧ ((handle_request_conn server request conn).2.protocol_version
          = init.protocol_version) := by
  refine ⟨?_, ?_, ?_⟩
  · simp [handle_request_conn, hparams, hstatus]
  · simp [handle_request_conn, hparams, hstatus]
  · have h : (handle_request_conn server request conn).2.protocol_version
        = conn.protocol_version := by
      simp [handle_request_conn, hparams, hstatus]
    rw [h]

/-- C6 witness: the concrete initialize request on a fresh session. -/
theorem claim_c6_witness :
    ((handle_request_conn server0 init_request conn_notinit).2.initialize_status
        = .Initializing)
      ∧ ((handle_request_conn server0 init_request conn_notinit).2.capabilities
          = init_params0.capabilities)
      ∧ ((handle_request_conn server0 init_request conn_notinit).2.protocol_version
          = init_params0.protocol_version) :=
  claim_c6 server0 init_request init_params0 conn_notinit rfl rfl

/-- C7 (refutation of "never aborts"): dispatching any decoded
notification aborts — the `Initialized` arm falls through to an
unconditional `todo!()` and every other arm is itself a `todo!()` — so
unimplemented notification methods end in a panic-equivalent abort, not
in a "method not found" or placeholder error. -/
theorem claim_c7 (request : JSONRPCNotification) (conn : ClientConn) :
    (handle_notification_conn request conn).1 = .panic := by
  cases hp : request.params <;> simp [handle_notification_conn, hp]

/-- C8 (failing input): a submission carrying the initialize request
for the registered session "s1" returns 200 OK with the state — every
session's mailbox included — unchanged, even though the dispatcher,
had it been invoked, would have produced the initialize response for
delivery. The submission handler never invokes the dispatcher. -/
theorem claim_c8 :
    (message_handler ⟨server_notinit, "/messages"⟩ ⟨"s1"⟩ (.Request init_request) =
      (⟨server_notinit, "/messages"⟩, .OK))
    ∧ (handle_request server_notinit init_request "s1" =
        .ok (.response ( handle_initialize server_notinit init_params0 "s1" (.Number 1)),
          { server_notinit with clients :=
            [("s1", { conn_notinit with
              initialize_status := .Initializing
              capabilities := init_params0.capabilities })] })) :=
  ⟨rfl, rfl⟩

/-- C9 counterexample: the logging-level decoder fails on the novel
literal "fatal" instead of capturing it as an opaque string. -/
theorem claim_c9_counterexample : decodeLoggingLevel (.str "fatal") = none := rfl

/-- C9 (amended): stop-reason fields gracefully fall back — every
string literal decodes as the opaque `StopReason.String` — but
logging-level fields do not: `LoggingLevel` is an untagged enum of unit
variants, which deserializes only from `null`, so every string literal
(novel or not) fails to decode. -/
theorem claim_c9_amended (s : String) :
    decodeStopReason (.str s) = some (.String s)
      ∧ decodeLoggingLevel (.str s) = none :=
  ⟨rfl, rfl⟩

/-- C10: the initialize success response carries the server's
configured name in both `serverInfo.name` and `serverInfo.version`;
when the configured version differs from the name, that version string
appears nowhere in `serverInfo`. -/
theorem claim_c10 (server : Server) (init : InitializeRequestParams)
    (sid : SessionId) (id : RequestId)
    (hne : server.version ≠ server.name) :
    response_server_info ( handle_initialize server init sid id) =
        some { name := server.name, version := server.name }
      ∧ response_server_info ( handle_initialize server init sid id) ≠
          some { name := server.name, version := server.version } := by
  constructor
  · rfl
  · intro hcontra
    rw [show response_server_info ( handle_initialize server init sid id) =
        some { name := server.name, version := server.name } from rfl] at hcontra
    simp only [Option.some.injEq, Implementation.mk.injEq] at hcontra
    exact hne hcontra.2.symm

/-- C10 witness: the fixture server, whose configured version "0.1.0"
differs from its name "rust-mcp". -/
theorem claim_c10_witness :
    response_server_info ( handle_initialize server0 init_params0 "s1" (.Number 1)) =
        some { name := server0.name, version := server0.name }
      ∧ response_server_info ( handle_initialize server0 init_params0 "s1" (.Number 1)) ≠
          some { name := server0.name, version := server0.version } :=
  claim_c10 server0 init_params0 "s1" (.Number 1) (by decide)

/-- C1 counterexample: decoding the encoding of the server's own
initialize success response does not give the message back — the
untagged `ResultEnum` decoder accepts any object with its first
variant, so the decoded result's defined fields are `Empty`, not
`Initialize`. -/
theorem claim_c1_counterexample :
    decodeJSONRPCMessage (encodeJSONRPCMessage c1_message) ≠ some c1_message := by
  intro h
  have h1 : (decodeJSONRPCMessage (encodeJSONRPCMessage c1_message)).map
      result_is_initialize = some false := rfl
  rw [h] at h1
  have h2 : (some c1_message).map result_is_initialize = some true := rfl
  rw [h2] at h1
  exact Bool.noConfusion (Option.some.inj h1)

/-- C1 (amended): the round-trip `decode (encode m) = m` fails for
success responses, whose defined result fields collapse to the `Empty`
variant; it does hold for every error response whose optional `data`
payload is not the JSON `null` value. -/
theorem claim_c1_amended (e : JSONRPCError) (hdata : e.error.data ≠ some .null) :
    decodeJSONRPCMessage (encodeJSONRPCMessage (.Response (.Error e))) =
      some (.Response (.Error e)) := by
  rcases e with ⟨jr, id, ⟨c, m, d⟩⟩
  cases id with
  | String s =>
    rcases d with _ | v
    · rfl
    · cases v with
      | null => exact absurd rfl hdata
      | bool b => rfl
      | num n => rfl
      | fnum q => rfl
      | str s' => rfl
      | arr xs => rfl
      | obj o => rfl
  | Number n =>
    rcases d with _ | v
    · rfl
    · cases v with
      | null => exact absurd rfl hdata
      | bool b => rfl
      | num n' => rfl
      | fnum q => rfl
      | str s' => rfl
      | arr xs => rfl
      | obj o => rfl

/-- C1 amended witness: a concrete method-not-found error response
round-trips. -/
theorem claim_c1_amended_witness :
    decodeJSONRPCMessage (encodeJSONRPCMessage (.Response (.Error
      ⟨"2.0", .Number 1, ⟨-32601, "Method not found", none⟩⟩))) =
      some (.Response (.Error
        ⟨"2.0", .Number 1, ⟨-32601, "Method not found", none⟩⟩)) :=
  claim_c1_amended ⟨"2.0", .Number 1, ⟨-32601, "Method not found", none⟩⟩ (by simp)

end Mcp
